import Mathlib

/-!
Verification of the occupancy-state reconciliation engine of the Bosch
RFDL-ZB-MS quirk (`src/custom_zha_quirks/bosch_tritech.py`).

The shallow embedding models the `BoschOccupancy` cluster as a pure state
record threaded through each handler.  The monotonic clock is modelled as
an `Int` (each handler receives the single `time.monotonic()` reading it
takes); the attribute cache holds only attribute `0x0000` (occupancy),
the one attribute the reconciler ever writes, and every call to
`_update_attribute` appends an `(attrid, value)` pair to an emission log
(zigpy's `_update_attribute` fires the `attribute_updated` listener event
unconditionally, which the repository's own tests observe via
`ClusterListener.attribute_updates`).  Timer handles are modelled by the
deadline they would fire at (`timer_handle`) or by a Boolean scheduled
flag for the periodic / one-shot timers whose deadline is never compared.
The event loop is taken to be running (the `RuntimeError` branches of
`loop.call_later` never fire in the scenarios the claims quantify over).
-/

namespace BoschTritech

/-- Policy constants from the top of `bosch_tritech.py`. -/
def MOTION_TIMEOUT_S : Int := 120

/-- Minimum occupied duration before a clear is reinterpreted as motion. -/
def STUCK_MOTION_THRESHOLD_S : Int := 30

/-- Occupied/silent duration that triggers a diagnostic warning. -/
def STUCK_WARNING_THRESHOLD_S : Int := 1800

/-- The mutable state of one `BoschOccupancy` cluster instance, together
with the log of attribute-change notifications it has emitted. -/
structure OccState where
  /-- `_attr_cache[0x0000]`: the reconciled occupancy attribute value. -/
  occupancy : Nat
  /-- Log of `_update_attribute` notifications, as `(attrid, value)`. -/
  emissions : List (Nat × Nat)
  /-- `_timer_handle`: pending auto-clear deadline (fires at this time). -/
  timer_handle : Option Int
  /-- `_stuck_check_handle`: a periodic stuck-state check is scheduled. -/
  stuck_check_scheduled : Bool
  /-- `_init_clear_handle`: the one-shot startup clear is scheduled. -/
  init_clear_scheduled : Bool
  /-- `_occupied_since`: monotonic time occupancy was last set. -/
  occupied_since : Option Int
  /-- `_last_communication`. -/
  last_communication : Int
  /-- `_last_motion_event`. -/
  last_motion_event : Option Int
  /-- `_motion_event_count`. -/
  motion_event_count : Nat
  /-- `_clear_event_count`. -/
  clear_event_count : Nat
  /-- `_communication_count`. -/
  communication_count : Nat
  /-- `_stuck_warnings`. -/
  stuck_warnings : Nat
deriving DecidableEq, Repr

/-- `LocalDataCluster._update_attribute`: write the attribute cache and
fire an `attribute_updated` notification (appended to the log).  Only
attribute `0x0000` is ever written by this cluster. -/
def update_attribute (attrid value : Nat) (s : OccState) : OccState :=
  { s with
    occupancy := if attrid = 0 then value else s.occupancy
    emissions := s.emissions ++ [(attrid, value)] }

/-- `BoschOccupancy.__init__` at monotonic time `now`: write occupancy 0,
initialise the tracking fields, schedule the stuck check and the delayed
startup clear. -/
def init_state (now : Int) : OccState :=
  update_attribute 0 0
    { occupancy := 0
      emissions := []
      timer_handle := none
      stuck_check_scheduled := true
      init_clear_scheduled := true
      occupied_since := none
      last_communication := now
      last_motion_event := none
      motion_event_count := 0
      clear_event_count := 0
      communication_count := 0
      stuck_warnings := 0 }

/-- `BoschOccupancy.motion_event`: bump counters and timestamps, write
occupancy 1, set `_occupied_since = now` (unconditionally, in source
order: after the attribute write), cancel any pending auto-clear timer
and schedule a fresh one for `now + MOTION_TIMEOUT_S`. -/
def motion_event (now : Int) (s : OccState) : OccState :=
  let s1 := { s with
    motion_event_count := s.motion_event_count + 1
    last_motion_event := some now
    last_communication := now }
  let s2 := update_attribute 0 1 s1
  let s3 := { s2 with occupied_since := some now }
  { s3 with timer_handle := some (now + MOTION_TIMEOUT_S) }

/-- `BoschOccupancy.motion_clear`: bump the clear counter and
`_last_communication`; when not occupied, or occupied for at least
`STUCK_MOTION_THRESHOLD_S`, re-enter `motion_event`; otherwise do
nothing further (the running auto-clear timer is left alone). -/
def motion_clear (now : Int) (s : OccState) : OccState :=
  let s1 := { s with
    clear_event_count := s.clear_event_count + 1
    last_communication := now }
  match s1.occupied_since with
  | none => motion_event now s1
  | some t =>
      if STUCK_MOTION_THRESHOLD_S ≤ now - t then motion_event now s1
      else s1

/-- `BoschOccupancy._clear_occupancy` (the auto-clear timer callback):
write occupancy 0, drop the timer handle and `_occupied_since`. -/
def clear_occupancy (s : OccState) : OccState :=
  let s1 := update_attribute 0 0 s
  { s1 with timer_handle := none, occupied_since := none }

/-- `BoschOccupancy._init_clear` (the one-shot startup timer callback):
consume the handle; when no motion event has been recorded since
activation, write occupancy 0 and drop `_occupied_since`. -/
def init_clear (s : OccState) : OccState :=
  let s1 := { s with init_clear_scheduled := false }
  if s1.motion_event_count = 0 then
    { (update_attribute 0 0 s1) with occupied_since := none }
  else s1

/-- `BoschOccupancy._schedule_stuck_check`: arm the periodic check. -/
def schedule_stuck_check (s : OccState) : OccState :=
  { s with stuck_check_scheduled := true }

/-- `BoschOccupancy._check_stuck_state` (the periodic tick): when
occupied with no recorded motion timestamp, repair via
`_clear_occupancy` and reschedule; when occupied and both the occupied
duration and the motion silence exceed `STUCK_WARNING_THRESHOLD_S`, bump
the warning counter; every path ends by rescheduling the next tick (the
`except` handler of the source likewise only reschedules). -/
def check_stuck_state (now : Int) (s : OccState) : OccState :=
  match s.occupied_since, s.last_motion_event with
  | some _, none => schedule_stuck_check (clear_occupancy s)
  | some since, some lm =>
      let s1 :=
        if STUCK_WARNING_THRESHOLD_S < now - since ∧
           STUCK_WARNING_THRESHOLD_S < now - lm then
          { s with stuck_warnings := s.stuck_warnings + 1 }
        else s
      schedule_stuck_check s1
  | none, _ => schedule_stuck_check s

/-- `BoschOccupancy.device_communication`. -/
def device_communication (now : Int) (s : OccState) : OccState :=
  { s with
    last_communication := now
    communication_count := s.communication_count + 1 }

/-- The operations that can hit one `BoschOccupancy` instance after
construction: bus events, the auto-clear timer, the periodic stuck tick,
the one-shot startup clear, and communication pings. -/
inductive Event where
  | motion (now : Int)
  | clear (now : Int)
  | timeout
  | stuck_tick (now : Int)
  | startup_fire
  | comm (now : Int)
deriving DecidableEq, Repr

/-- Apply one operation of the occupancy state machine. -/
def step (s : OccState) (e : Event) : OccState :=
  match e with
  | .motion now => motion_event now s
  | .clear now => motion_clear now s
  | .timeout => clear_occupancy s
  | .stuck_tick now => check_stuck_state now s
  | .startup_fire => init_clear s
  | .comm now => device_communication now s

/-- Run a trace of operations from a freshly constructed cluster. -/
def run (t0 : Int) (es : List Event) : OccState :=
  es.foldl step (init_state t0)

/-- The spec's state invariant: the occupancy attribute reads 1 exactly
when `_occupied_since` is set. -/
def occ_inv (s : OccState) : Prop :=
  s.occupancy = 1 ↔ s.occupied_since ≠ none

/-! ### The hardware event adapter (`BoschIasZone`) -/

/-- Tracking state of `BoschIasZone`. -/
structure IasState where
  /-- `_last_zone_status`. -/
  last_zone_status : Option Nat
  /-- `_zone_status_count`. -/
  zone_status_count : Nat
deriving DecidableEq, Repr

/-- The semantic events `BoschIasZone` publishes on the motion bus. -/
inductive BusEvent where
  | communication
  | motion
  | motion_clear
deriving DecidableEq, Repr

/-- `BoschIasZone.handle_cluster_request`: on a zone-status change
notification (`command_id = 0`), read `args[0] if args else 0`, bump the
message counter, record the status, and publish `communication` followed
by `motion` (bit 0 set) or `motion_clear` (bit 0 unset).  Any other
command publishes nothing. -/
def handle_cluster_request (command_id : Nat) (args : List Nat)
    (st : IasState) : IasState × List BusEvent :=
  if command_id = 0 then
    let zone_status := args.headD 0
    let st1 := { st with
      zone_status_count := st.zone_status_count + 1
      last_zone_status := some zone_status }
    (st1,
      [BusEvent.communication] ++
        (if zone_status &&& 1 ≠ 0 then [BusEvent.motion]
         else [BusEvent.motion_clear]))
  else (st, [])

/-! ### Helper lemmas -/

/-- `motion_event` computed field by field. -/
lemma motion_event_def (now : Int) (s : OccState) :
    motion_event now s =
      { s with
        occupancy := 1
        emissions := s.emissions ++ [(0, 1)]
        timer_handle := some (now + MOTION_TIMEOUT_S)
        occupied_since := some now
        last_communication := now
        last_motion_event := some now
        motion_event_count := s.motion_event_count + 1 } := rfl

/-- `clear_occupancy` computed field by field. -/
lemma clear_occupancy_def (s : OccState) :
    clear_occupancy s =
      { s with
        occupancy := 0
        emissions := s.emissions ++ [(0, 0)]
        timer_handle := none
        occupied_since := none } := rfl

lemma occ_inv_motion_event (now : Int) (s : OccState) :
    occ_inv (motion_event now s) := by
  simp [occ_inv, motion_event_def]

lemma occ_inv_clear_occupancy (s : OccState) :
    occ_inv (clear_occupancy s) := by
  simp [occ_inv, clear_occupancy_def]

lemma occ_inv_init_state (t0 : Int) : occ_inv (init_state t0) := by
  simp [occ_inv, init_state, update_attribute]

lemma occ_inv_step (s : OccState) (e : Event) (h : occ_inv s) :
    occ_inv (step s e) := by
  cases e with
  | motion now => exact occ_inv_motion_event now s
  | clear now =>
      show occ_inv (motion_clear now s)
      unfold motion_clear
      rcases hs : s.occupied_since with _ | t
      · simpa [hs] using occ_inv_motion_event now _
      · simp only [hs]
        split
        · exact occ_inv_motion_event now _
        · simpa [occ_inv, hs] using h
  | timeout => exact occ_inv_clear_occupancy s
  | stuck_tick now =>
      show occ_inv (check_stuck_state now s)
      unfold check_stuck_state
      rcases hs : s.occupied_since with _ | t <;>
        rcases hm : s.last_motion_event with _ | lm
      all_goals
        simp only [hs, hm, schedule_stuck_check]
      · simpa [occ_inv, hs] using h
      · simpa [occ_inv, hs] using h
      · exact occ_inv_clear_occupancy s
      · split <;> simpa [occ_inv, hs] using h
  | startup_fire =>
      show occ_inv (init_clear s)
      by_cases hc : s.motion_event_count = 0
      · simp [occ_inv, init_clear, hc, update_attribute]
      · simpa [occ_inv, init_clear, hc] using h
  | comm now =>
      simpa [occ_inv, step, device_communication] using h

lemma schedule_stuck_check_scheduled (u : OccState) :
    (schedule_stuck_check u).stuck_check_scheduled = true := rfl

lemma check_stuck_state_scheduled (m : Int) (u : OccState) :
    (check_stuck_state m u).stuck_check_scheduled = true := by
  unfold check_stuck_state
  rcases hu : u.occupied_since with _ | t <;>
    rcases hm : u.last_motion_event with _ | lm <;>
      simp [hu, hm, schedule_stuck_check]

/-- A state that is OCCUPIED without a recorded motion timestamp: the
"impossible state" the stuck-state monitor repairs.  It is not reachable
through the state machine itself, which is why the monitor guards it. -/
def stuck_state_example : OccState :=
  { occupancy := 1
    emissions := []
    timer_handle := none
    stuck_check_scheduled := true
    init_clear_scheduled := false
    occupied_since := some 0
    last_communication := 0
    last_motion_event := none
    motion_event_count := 0
    clear_event_count := 0
    communication_count := 0
    stuck_warnings := 0 }

/-! ### Claim theorems -/

/-- Claim C1, counterexample: after motion at time 1 the reconciler is
OCCUPIED with `occupied_since = 1`; a second motion at time 2, delivered
while already OCCUPIED, moves `occupied_since` to 2.  `motion_event`
therefore does not leave `occupied_since` unchanged on repeat motion:
line 367 of the source assigns `self._occupied_since = now`
unconditionally. -/
theorem repeat_motion_resets_occupied_since :
    (motion_event 1 (init_state 0)).occupied_since = some 1 ∧
    (motion_event 1 (init_state 0)).occupancy = 1 ∧
    (motion_event 2 (motion_event 1 (init_state 0))).occupied_since
      = some 2 :=
  ⟨rfl, rfl, rfl⟩

/-- Claim C1, amended: `motion_event` sets `occupied_since` to the
current time on every motion event — also while already OCCUPIED, not
only on the rising edge — and cancels and reschedules the auto-clear
deadline timer; the complete effect on the state is the record update
below (occupancy written to 1 with one emission, timestamps and the
motion counter refreshed, everything else untouched). -/
theorem motion_event_always_stamps_occupied_since
    (now : Int) (s : OccState) :
    motion_event now s =
      { s with
        occupancy := 1
        emissions := s.emissions ++ [(0, 1)]
        timer_handle := some (now + MOTION_TIMEOUT_S)
        occupied_since := some now
        last_communication := now
        last_motion_event := some now
        motion_event_count := s.motion_event_count + 1 } := rfl

/-- Claim C2, counterexample: motion at time 1 is the rising edge (it
leaves the occupancy attribute at 1); a second motion at time 2 while
already OCCUPIED emits another `(occupancy, 1)` attribute-change
notification, so the sequence produces two emissions, not exactly one.
`_update_attribute(0x0000, 1)` runs unconditionally on every motion
event, and the repository's own test
(`test_bosch_rfdl_zb_ms_clear_after_threshold_triggers_motion`) asserts
this second `(0x0000, 1)` update. -/
theorem repeat_motion_reemits :
    (motion_event 1 (init_state 0)).occupancy = 1 ∧
    (motion_event 2 (motion_event 1 (init_state 0))).emissions
      = [(0, 0), (0, 1), (0, 1)] :=
  ⟨rfl, rfl⟩

/-- Claim C2, amended: every motion event (real or synthetic) emits
exactly one `occupied=true` attribute-change notification, whether or
not the state was already OCCUPIED: a sequence of `n` motion events
appends exactly `n` `(occupancy, 1)` emissions, one per event, rather
than exactly one across the whole sequence. -/
theorem motion_events_emit_once_each (ts : List Int) (s : OccState) :
    (ts.foldl (fun a t => motion_event t a) s).emissions
      = s.emissions ++ ts.map (fun _ => ((0 : Nat), (1 : Nat))) := by
  induction ts generalizing s with
  | nil => simp
  | cons t ts ih =>
      rw [List.foldl_cons, ih, motion_event_def]
      simp

/-- Claim C3: the invariant `occupied == true ⇔ occupied_since != null`
holds in the freshly constructed state, is preserved by every operation
of the state machine (motion, clear, the auto-clear timer, the stuck
tick, the startup clear, communication), and hence holds after any
trace of operations. -/
theorem occupancy_invariant :
    (∀ t0 : Int, occ_inv (init_state t0)) ∧
    (∀ (s : OccState) (e : Event), occ_inv s → occ_inv (step s e)) ∧
    (∀ (t0 : Int) (es : List Event), occ_inv (run t0 es)) := by
  refine ⟨occ_inv_init_state, occ_inv_step, ?_⟩
  intro t0 es
  suffices h : ∀ (l : List Event) (s : OccState),
      occ_inv s → occ_inv (l.foldl step s) by
    exact h es _ (occ_inv_init_state t0)
  intro l
  induction l with
  | nil => intro s h; exact h
  | cons e l ih => intro s h; exact ih _ (occ_inv_step s e h)

/-- Claim C3, witness: the preservation part applied at the initial
state and a concrete motion event. -/
theorem occupancy_invariant_witness :
    occ_inv (step (init_state 0) (Event.motion 1)) :=
  occupancy_invariant.2.1 (init_state 0) (Event.motion 1)
    (occ_inv_init_state 0)

/-- Claim C4: a `motion_clear` arriving while OCCUPIED with
`now - occupied_since ≥ STUCK_MOTION_THRESHOLD_S` is treated as a
synthetic motion: the motion counter increments, the auto-clear
deadline restarts at `now + MOTION_TIMEOUT_S`, and the state remains
OCCUPIED. -/
theorem late_clear_is_synthetic_motion (now t : Int) (s : OccState)
    (hocc : s.occupied_since = some t)
    (hlate : STUCK_MOTION_THRESHOLD_S ≤ now - t) :
    (motion_clear now s).motion_event_count = s.motion_event_count + 1 ∧
    (motion_clear now s).timer_handle = some (now + MOTION_TIMEOUT_S) ∧
    (motion_clear now s).occupancy = 1 ∧
    (motion_clear now s).occupied_since = some now := by
  have h : motion_clear now s
      = motion_event now
          { s with clear_event_count := s.clear_event_count + 1
                   last_communication := now } := by
    simp [motion_clear, hocc, hlate]
  simp [h, motion_event_def]

/-- Claim C4, witness: motion at time 0, clear at time 30 (exactly the
threshold). -/
theorem late_clear_witness :
    (motion_clear 30 (motion_event 0 (init_state 0))).motion_event_count
      = (motion_event 0 (init_state 0)).motion_event_count + 1 ∧
    (motion_clear 30 (motion_event 0 (init_state 0))).timer_handle
      = some (30 + MOTION_TIMEOUT_S) ∧
    (motion_clear 30 (motion_event 0 (init_state 0))).occupancy = 1 ∧
    (motion_clear 30 (motion_event 0 (init_state 0))).occupied_since
      = some 30 :=
  late_clear_is_synthetic_motion 30 0 (motion_event 0 (init_state 0))
    rfl (by decide)

/-- Claim C5: a `motion_clear` arriving while OCCUPIED with
`now - occupied_since < STUCK_MOTION_THRESHOLD_S` only bumps the clear
counter and `last_communication`: the occupancy attribute,
`occupied_since`, the auto-clear deadline and the emission log are all
unchanged (zero attribute-change emissions). -/
theorem early_clear_is_noop (now t : Int) (s : OccState)
    (hocc : s.occupied_since = some t)
    (hearly : now - t < STUCK_MOTION_THRESHOLD_S) :
    motion_clear now s =
      { s with
        clear_event_count := s.clear_event_count + 1
        last_communication := now } := by
  have hnot : ¬ STUCK_MOTION_THRESHOLD_S ≤ now - t := not_le.mpr hearly
  simp [motion_clear, hocc, hnot]

/-- Claim C5, witness: motion at time 0, clear at time 10 (inside the
threshold). -/
theorem early_clear_witness :
    motion_clear 10 (motion_event 0 (init_state 0)) =
      { motion_event 0 (init_state 0) with
        clear_event_count :=
          (motion_event 0 (init_state 0)).clear_event_count + 1
        last_communication := 10 } :=
  early_clear_is_noop 10 0 (motion_event 0 (init_state 0)) rfl (by decide)

/-- Claim C6: a `motion_clear` arriving while UNOCCUPIED is treated as
a synthetic motion: exactly one attribute-change emission
`(occupancy, 1)` is appended and `occupied_since` is initialised to the
current time. -/
theorem clear_while_unoccupied_is_motion (now : Int) (s : OccState)
    (hunocc : s.occupied_since = none) :
    (motion_clear now s).emissions = s.emissions ++ [(0, 1)] ∧
    (motion_clear now s).occupied_since = some now ∧
    (motion_clear now s).occupancy = 1 := by
  simp [motion_clear, hunocc, motion_event_def]

/-- Claim C6, witness: a clear at time 5 on a freshly constructed
(unoccupied) state. -/
theorem clear_unoccupied_witness :
    (motion_clear 5 (init_state 0)).emissions
      = (init_state 0).emissions ++ [(0, 1)] ∧
    (motion_clear 5 (init_state 0)).occupied_since = some 5 ∧
    (motion_clear 5 (init_state 0)).occupancy = 1 :=
  clear_while_unoccupied_is_motion 5 (init_state 0) rfl

/-- Claim C7: whenever the auto-clear timer fires (`_clear_occupancy`,
the `timeout` step), the resulting state is UNOCCUPIED with
`occupied_since = none` and the timer handle cleared, and one
`(occupancy, 0)` attribute-change notification is emitted. -/
theorem auto_clear_transition (s : OccState) :
    (step s Event.timeout).occupancy = 0 ∧
    (step s Event.timeout).occupied_since = none ∧
    (step s Event.timeout).timer_handle = none ∧
    (step s Event.timeout).emissions = s.emissions ++ [(0, 0)] := by
  simp [step, clear_occupancy_def]

/-- Claim C8: on every zone-status change notification
(`command_id = 0`), the adapter publishes `communication`
unconditionally followed by exactly one of `motion` (bit 0 of the
bitmask set) or `motion_clear` (bit 0 unset); a missing payload is
treated as bitmask 0, i.e. a clear — the handler is total, with no
error path. -/
theorem zone_status_dispatch (args : List Nat) (st : IasState) :
    (handle_cluster_request 0 args st).2
      = [BusEvent.communication,
         if args.headD 0 &&& 1 ≠ 0 then BusEvent.motion
         else BusEvent.motion_clear] ∧
    (handle_cluster_request 0 [] st).2
      = [BusEvent.communication, BusEvent.motion_clear] := by
  have hsplit : (handle_cluster_request 0 args st).2
      = [BusEvent.communication] ++
        (if args.headD 0 &&& 1 ≠ 0 then [BusEvent.motion]
         else [BusEvent.motion_clear]) := rfl
  constructor
  · rw [hsplit]
    by_cases h : args.headD 0 &&& 1 ≠ 0
    · rw [if_pos h, if_pos h]; rfl
    · rw [if_neg h, if_neg h]; rfl
  · rfl

/-- Claim C9: a stuck-check tick on a state that is OCCUPIED with no
recorded motion timestamp forces the auto-clear transition (occupancy
0, `occupied_since` dropped, one `(occupancy, 0)` emission) and still
reschedules the next tick; moreover every tick path — including the
`except` handler, which runs exactly `_schedule_stuck_check` — leaves
the next periodic check scheduled. -/
theorem stuck_repair_and_reschedule (now : Int) (s : OccState)
    (hocc : s.occupied_since ≠ none)
    (hnm : s.last_motion_event = none) :
    (check_stuck_state now s).occupancy = 0 ∧
    (check_stuck_state now s).occupied_since = none ∧
    (check_stuck_state now s).emissions = s.emissions ++ [(0, 0)] ∧
    (check_stuck_state now s).stuck_check_scheduled = true ∧
    (∀ u : OccState,
      (schedule_stuck_check u).stuck_check_scheduled = true) ∧
    (∀ (m : Int) (u : OccState),
      (check_stuck_state m u).stuck_check_scheduled = true) := by
  rcases hs : s.occupied_since with _ | t
  · exact absurd hs hocc
  · refine ⟨?_, ?_, ?_, ?_, schedule_stuck_check_scheduled,
      check_stuck_state_scheduled⟩ <;>
      simp [check_stuck_state, hs, hnm, schedule_stuck_check,
        clear_occupancy_def]

/-- Claim C9, witness: the repair applied to a concrete impossible
state (occupied at time 0, no motion timestamp) at tick time 300. -/
theorem stuck_repair_witness :
    (check_stuck_state 300 stuck_state_example).occupancy = 0 ∧
    (check_stuck_state 300 stuck_state_example).occupied_since = none ∧
    (check_stuck_state 300 stuck_state_example).emissions
      = stuck_state_example.emissions ++ [(0, 0)] ∧
    (check_stuck_state 300 stuck_state_example).stuck_check_scheduled
      = true ∧
    (∀ u : OccState,
      (schedule_stuck_check u).stuck_check_scheduled = true) ∧
    (∀ (m : Int) (u : OccState),
      (check_stuck_state m u).stuck_check_scheduled = true) :=
  stuck_repair_and_reschedule 300 stuck_state_example (by decide) rfl

/-- Claim C10: when the one-shot startup timer fires with no motion
recorded since activation, the state is forced to UNOCCUPIED (occupancy
attribute 0, `occupied_since` dropped, with the corresponding
emission); when motion has already arrived, the callback changes
nothing beyond consuming its own one-shot handle. -/
theorem startup_clear (s : OccState) :
    (s.motion_event_count = 0 →
      (init_clear s).occupancy = 0 ∧
      (init_clear s).occupied_since = none ∧
      (init_clear s).emissions = s.emissions ++ [(0, 0)]) ∧
    (s.motion_event_count ≠ 0 →
      init_clear s = { s with init_clear_scheduled := false }) := by
  constructor
  · intro h; simp [init_clear, h, update_attribute]
  · intro h; simp [init_clear, h]

/-- Claim C10, witness: the forced clear on the fresh state (zero
motion events) and the no-op on a state with one motion event. -/
theorem startup_clear_witness :
    ((init_clear (init_state 0)).occupancy = 0 ∧
      (init_clear (init_state 0)).occupied_since = none ∧
      (init_clear (init_state 0)).emissions
        = (init_state 0).emissions ++ [(0, 0)]) ∧
    init_clear (motion_event 1 (init_state 0))
      = { motion_event 1 (init_state 0) with
          init_clear_scheduled := false } :=
  ⟨(startup_clear (init_state 0)).1 rfl,
    (startup_clear (motion_event 1 (init_state 0))).2 (by decide)⟩

end BoschTritech
